import Mathlib

/-!
Verification development for the sprint-planning-copilot backend.

This file gives a shallow embedding, in Lean, of the queue-backed meeting
job pipeline and of the diarized-transcription alignment algorithm of the
repository, and proves (or refutes) the testable properties stated in its
specification.

Embedding conventions:
* Python byte strings are `List ℕ` (one entry per byte).
* Machine-external effects (ffmpeg decoding, the WAV parser, the Azure speech
  SDK, network calls) are oracle inputs: their *results* are parameters of the
  embedded functions, exactly at the call boundary where the source consumes
  them.
* Fallible code returns `Except String α`; the carried string is the raised
  exception's message where the source builds one.
-/

/-! ## Audio normalizer — `backend/infrastructure/audio/normalizer.py` -/

/-- Fuel-driven helper for `nat_log2`: the fuel only bounds the recursion
depth (each step halves `n`), so any fuel of at least `⌊log₂ n⌋` is enough. -/
def log2_fuel : ℕ → ℕ → ℕ
  | 0, _ => 0
  | fuel + 1, n => if n ≤ 1 then 0 else log2_fuel fuel (n / 2) + 1

/-- `⌊log₂ n⌋` for `n ≥ 1` (and 0 at 0), by repeated halving. -/
def nat_log2 (n : ℕ) : ℕ := log2_fuel n n

/-- `⌊log₂ (a / b)⌋` for `a, b ≥ 1`: the candidate exponent from the integer
logarithms is off by at most one, settled by one exact comparison. -/
def floor_log2 (a b : ℕ) : ℤ :=
  let e0 : ℤ := (nat_log2 a : ℤ) - (nat_log2 b : ℤ)
  if b * 2 ^ e0.toNat ≤ a * 2 ^ (-e0).toNat then e0 else e0 - 1

/-- Round the nonnegative rational `num / den` (`den ≥ 1`) to the nearest
natural number, ties to even — IEEE-754's default rounding applied to an
integer target. -/
def round_half_even (num den : ℕ) : ℕ :=
  let q := num / den
  let r2 := 2 * (num % den)
  if r2 < den then q
  else if den < r2 then q + 1
  else if q % 2 = 0 then q else q + 1

/-- A nonnegative IEEE-754 binary64 value, represented exactly as the dyadic
rational `m * 2 ^ (-scale)` with a 53-bit significand `m`. The exponent is
unbounded: overflow and subnormal rounding are not modelled, so this agrees
with binary64 exactly for magnitudes in `[2^-1022, 2^1024)` — which covers
every value the embedded tick computation produces on realistic audio
parameters. -/
structure Binary64 where
  m : ℕ
  scale : ℤ
deriving DecidableEq, Repr

/-- The correctly rounded (nearest, ties to even) binary64 value of `a / b`,
as computed by CPython's exact `int.__truediv__`: locate `⌊log₂ (a/b)⌋`, scale
to a 53-bit significand and round once. -/
def binary64_div (a b : ℕ) : Binary64 :=
  if a = 0 ∨ b = 0 then { m := 0, scale := 0 }
  else
    let e := floor_log2 a b
    let s : ℤ := 52 - e
    { m := round_half_even (a * 2 ^ s.toNat) (b * 2 ^ (-s).toNat), scale := s }

/-- Correctly rounded binary64 product of a binary64 value with an exactly
representable natural constant (IEEE-754 multiplication rounds the exact
product once). -/
def Binary64.mul_nat (x : Binary64) (k : ℕ) : Binary64 :=
  binary64_div (x.m * k * 2 ^ (-x.scale).toNat) (2 ^ x.scale.toNat)

/-- Python's `int()` on a nonnegative binary64 value: truncation toward zero,
which on nonnegative values is the floor. -/
def Binary64.trunc_to_int (x : Binary64) : ℤ :=
  ((x.m * 2 ^ (-x.scale).toNat / 2 ^ x.scale.toNat : ℕ) : ℤ)

/-- Embeds `frames_to_ticks` (normalizer.py lines 58-60):
`seconds = frame_index / sample_rate; return int(seconds * 10_000_000)`.
Python evaluates this in IEEE-754 binary64 double floats: the true division
of the two integers is correctly rounded, the product with the exactly
representable `10_000_000.0` is correctly rounded, and `int()` truncates the
result toward zero. Both roundings matter: the result can differ from the
exact `⌊frame_index * 10_000_000 / sample_rate⌋`. -/
def frames_to_ticks (frame_index : ℕ) (sample_rate : ℕ) : ℤ :=
  ((binary64_div frame_index sample_rate).mul_nat 10000000).trunc_to_int

/-- Spec-side definition, following the specification's words
`ticks = round(frame_index / sample_rate * 10_000_000)` (round to the nearest
tick), to be compared with `frames_to_ticks` as embedded from the source. -/
def ticks_round_spec (frame_index : ℕ) (sample_rate : ℕ) : ℤ :=
  round (((frame_index : ℚ) / (sample_rate : ℚ)) * 10000000)

/-! ## Intro alignment — `backend/infrastructure/transcription/azure_conversation.py` -/

/-- One intro boundary, as built by `_prepend_reference_intros`
(a Python dict `{"role": .., "start": .., "end": ..}`). -/
structure Boundary where
  role : String
  start_tick : ℤ
  end_tick : ℤ
deriving DecidableEq, Repr

/-- Oracle record for one reference intro file: the result of
`wav_payload(convert_to_standard_wav(path.read_bytes(), ...))` together with
the file name and the role derived from it
(`role = path.stem.split("_", 1)[-1].upper()`, kept abstract here since it is
a filesystem-path operation). `wav_payload` returns
`(frames, num_frames, sample_rate, sample_width, channels)`. -/
structure DecodedIntro where
  name : String
  role : String
  frames : List ℕ
  num_frames : ℕ
  sample_rate : ℕ
  sample_width : ℕ
  channels : ℕ
deriving DecidableEq, Repr

/-- One loaded intro chunk, as stored by `_load_intro_chunks`
(`{"role": role, "frames": frames, "num_frames": num_frames}`). -/
structure IntroChunk where
  role : String
  frames : List ℕ
  num_frames : ℕ
deriving DecidableEq, Repr

/-- Embeds `AzureConversationTranscriber._load_intro_chunks` (lines 66-82):
iterate over the decoded intro files in enumeration order; if a file's decoded
`(sample_rate, sample_width, channels)` differs from the meeting audio's,
raise `ValueError(f"Intro sample {path.name} has incompatible audio format")`;
otherwise collect the chunk. Directory enumeration and decoding are the oracle
input `decoded`. -/
def load_intro_chunks : List DecodedIntro → ℕ → ℕ → ℕ → Except String (List IntroChunk)
  | [], _, _, _ => .ok []
  | d :: rest, sr, sw, ch =>
    if (d.sample_rate, d.sample_width, d.channels) ≠ (sr, sw, ch) then
      .error ("Intro sample " ++ d.name ++ " has incompatible audio format")
    else
      match load_intro_chunks rest sr sw ch with
      | .error e => .error e
      | .ok cs => .ok ({ role := d.role, frames := d.frames, num_frames := d.num_frames } :: cs)

/-- Result of `_prepend_reference_intros`: the combined PCM frame stream (the
WAV container written by `build_wav` around it is dropped, only the payload
bytes are modelled), the intro boundaries, and `meeting_start_tick`. -/
structure AlignedAudio where
  frames : List ℕ
  boundaries : List Boundary
  meeting_start_tick : ℤ
deriving DecidableEq, Repr

/-- The per-intro loop of `_prepend_reference_intros` (lines 103-111), with the
frame cursor passed explicitly. For each intro: append its frames, record
`start_tick` at the cursor, advance by `num_frames`, record `end_tick`, and if
the silence chunk is nonempty append it and advance by `silence_frames`.
Returns the appended frame stream, the boundary list and the final cursor. -/
def intros_loop (silence_chunk : List ℕ) (silence_frames : ℕ) (sample_rate : ℕ) :
    List IntroChunk → ℕ → List ℕ × List Boundary × ℕ
  | [], cursor => ([], [], cursor)
  | intro :: rest, cursor =>
    let start_tick := frames_to_ticks cursor sample_rate
    let cursor1 := cursor + intro.num_frames
    let end_tick := frames_to_ticks cursor1 sample_rate
    let cursor2 := if silence_chunk ≠ [] then cursor1 + silence_frames else cursor1
    let r := intros_loop silence_chunk silence_frames sample_rate rest cursor2
    (intro.frames ++ (if silence_chunk ≠ [] then silence_chunk else []) ++ r.1,
      { role := intro.role, start_tick := start_tick, end_tick := end_tick } :: r.2.1,
      r.2.2)

/-- Embeds `AzureConversationTranscriber._prepend_reference_intros`
(lines 84-117). `silence_frames = int(sample_rate * intro_silence_ms / 1000)`
is exact-rational truncation, here natural floor division;
`silence_chunk = b"\x00" * silence_frames * sample_width * channels` when
`silence_frames` is nonzero, else empty. With no intros the meeting audio is
returned unchanged with no boundaries and `meeting_start_tick = 0`. -/
def prepend_reference_intros (decoded : List DecodedIntro) (meeting_frames : List ℕ)
    (sample_rate sample_width channels intro_silence_ms : ℕ) : Except String AlignedAudio :=
  match load_intro_chunks decoded sample_rate sample_width channels with
  | .error e => .error e
  | .ok intros =>
    if intros = [] then
      .ok { frames := meeting_frames, boundaries := [], meeting_start_tick := 0 }
    else
      let silence_frames := sample_rate * intro_silence_ms / 1000
      let silence_chunk : List ℕ :=
        if silence_frames ≠ 0 then List.replicate (silence_frames * sample_width * channels) 0
        else []
      let r := intros_loop silence_chunk silence_frames sample_rate intros 0
      .ok { frames := r.1 ++ meeting_frames,
            boundaries := r.2.1,
            meeting_start_tick := frames_to_ticks r.2.2 sample_rate }

/-- Spec-side boundary construction, following the specification's words: for
each sample in enumeration order record `start_tick = ticks(cursor)`, advance
the cursor by the sample's frame count, record `end_tick = ticks(cursor)`,
then advance the cursor by the silence gap. Used to state what the embedded
loop computes. -/
def boundaries_spec (sample_rate silence_frames : ℕ) : List IntroChunk → ℕ → List Boundary
  | [], _ => []
  | c :: rest, cursor =>
    { role := c.role,
      start_tick := frames_to_ticks cursor sample_rate,
      end_tick := frames_to_ticks (cursor + c.num_frames) sample_rate }
      :: boundaries_spec sample_rate silence_frames rest (cursor + c.num_frames + silence_frames)

/-- Sum of the frame counts of a chunk list (helper for stating the final
cursor of the intro loop). -/
def total_num_frames (intros : List IntroChunk) : ℕ :=
  (intros.map IntroChunk.num_frames).sum

/-! ## Speaker resolution — `azure_conversation.py` lines 136-206 -/

/-- One recognized event's payload: `result.offset` (ticks),
`getattr(result, "speaker_id", None)` and `result.text`, as consumed by
`_recognized_handler`. Speaker identifiers are opaque; modelled as `ℕ`. -/
structure TranscriptionSegment where
  speaker_id : Option ℕ
  text : String
  offset : ℤ
deriving DecidableEq, Repr

/-- Embeds `_role_for_offset`'s search loop (lines 146-150), returning the
first boundary whose half-open interval `[start, end)` contains the offset. -/
def boundary_for_offset (boundaries : List Boundary) (offset_ticks : ℤ) : Option Boundary :=
  boundaries.find? fun b => decide (b.start_tick ≤ offset_ticks) && decide (offset_ticks < b.end_tick)

/-- Embeds `_role_for_offset` (lines 146-150): the role of the first boundary
containing the offset, else `None`. -/
def role_for_offset (boundaries : List Boundary) (offset_ticks : ℤ) : Option String :=
  (boundary_for_offset boundaries offset_ticks).map Boundary.role

/-- The mutable state of one transcription session: the `speaker_roles` dict
(insertion-ordered association list, as Python dicts are) and the
`recognized_segments` list. -/
structure RecognitionState where
  speaker_roles : List (ℕ × String)
  recognized_segments : List String
deriving DecidableEq, Repr

/-- Dict lookup `speaker_roles.get(k)`. -/
def lookup_role (m : List (ℕ × String)) (k : ℕ) : Option String :=
  (m.find? fun p => p.1 == k).map Prod.snd

/-- Dict update `speaker_roles.setdefault(k, v)`: insert only when the key is
absent. -/
def setdefault_role (m : List (ℕ × String)) (k : ℕ) (v : String) : List (ℕ × String) :=
  if (lookup_role m k).isSome then m else m ++ [(k, v)]

/-- Embeds `_label_for_speaker` (lines 141-144). -/
def label_for_speaker (m : List (ℕ × String)) : Option ℕ → String
  | none => "Speaker"
  | some sid => (lookup_role m sid).getD ("Speaker " ++ toString sid)

/-- Tail of `_recognized_handler` after the in-boundary branch (lines 163-166):
segments before `meeting_start_tick` are discarded, others are emitted as
`f"{label}: {text}"`. -/
def emit_or_discard (meeting_start_tick : ℤ) (st : RecognitionState)
    (seg : TranscriptionSegment) (text : String) : RecognitionState :=
  if seg.offset < meeting_start_tick then st
  else
    { st with recognized_segments :=
        st.recognized_segments ++ [label_for_speaker st.speaker_roles seg.speaker_id ++ ": " ++ text] }

/-- Embeds `_recognized_handler` (lines 152-166) for a `RecognizedSpeech`
event: strip the text and ignore blank results; if the offset falls in a
boundary with a truthy (nonempty) role and the engine supplied a speaker id,
record `speaker_roles.setdefault(speaker_id, role)` and discard the segment;
otherwise discard pre-meeting segments and emit the rest. -/
def recognized_handler (boundaries : List Boundary) (meeting_start_tick : ℤ)
    (st : RecognitionState) (seg : TranscriptionSegment) : RecognitionState :=
  let text := seg.text.trim
  if text = "" then st
  else
    match role_for_offset boundaries seg.offset, seg.speaker_id with
    | some role, some sid =>
      if role = "" then emit_or_discard meeting_start_tick st seg text
      else { st with speaker_roles := setdefault_role st.speaker_roles sid role }
    | _, _ => emit_or_discard meeting_start_tick st seg text

/-- Folds `_recognized_handler` over the recognized events of one session,
starting from an arbitrary state. -/
def process_segments (boundaries : List Boundary) (meeting_start_tick : ℤ)
    (st : RecognitionState) (segs : List TranscriptionSegment) : RecognitionState :=
  segs.foldl (recognized_handler boundaries meeting_start_tick) st

/-- Embeds the tail of `AzureConversationTranscriber.transcribe`
(lines 201-206): raise the first cancellation error if any; raise
`RuntimeError("No speech could be recognized.")` when no segment was emitted;
otherwise return the newline-joined transcript. -/
def finish_transcribe (canceled_error : List String) (recognized_segments : List String) :
    Except String String :=
  match canceled_error with
  | e :: _ => .error e
  | [] =>
    if recognized_segments = [] then .error "No speech could be recognized."
    else .ok (String.intercalate "\n" recognized_segments)

/-! ## Job pipeline — queue worker and orchestrator -/

/-- Modelled from the spec: `MeetingStatus` (`backend/domain/status.py` is not
present under the sources; §3 of the specification fixes the enum
`{QUEUED, PROCESSING, COMPLETED, FAILED}`). -/
inductive MeetingStatus where
  | queued
  | processing
  | completed
  | failed
deriving DecidableEq, Repr

/-- Modelled from the spec: `MeetingImportJob` (`backend/domain/entities.py` is
not present under the sources; §3/§6 fix the fields `meeting_id`, `title`,
`started_at`, `blob_url` and optional `original_filename`, all strings). -/
structure MeetingImportJob where
  meeting_id : String
  title : String
  started_at : String
  blob_url : String
  original_filename : Option String
deriving DecidableEq, Repr

/-- What `AzureQueueWorker._process_message` did with one message. -/
structure MessageDisposition where
  deleted : Bool
  handler_ran : Bool
deriving DecidableEq, Repr

/-- Embeds `AzureQueueWorker._process_message` (azure_storage.py lines
96-111). `decoded` is the outcome of
`MeetingImportJob(**json.loads(message.content))`: a malformed payload is
deleted immediately without running the handler (poison message); otherwise
the handler runs, and the message is deleted exactly when it returns without
raising. -/
def process_message (decoded : Except String MeetingImportJob)
    (handler : MeetingImportJob → Except String Unit) : MessageDisposition :=
  match decoded with
  | .error _ => { deleted := true, handler_ran := false }
  | .ok job =>
    match handler job with
    | .ok _ => { deleted := true, handler_ran := true }
    | .error _ => { deleted := false, handler_ran := true }

/-! ## Orchestrator — `backend/application/use_cases/extract_meeting.py` -/

/-- Minimal stand-in for `backend.schemas.ExtractionResult` (a pydantic model
with a nonempty task list); its content is opaque to the pipeline logic
verified here. -/
structure ExtractionResult where
  tasks : List String
deriving DecidableEq, Repr

/-- Observable actions of one `ExtractMeetingUseCase.__call__` run, in
execution order: the blob download attempt and each
`update_meeting_status(meeting_id, status)` call. -/
inductive OrchestratorEvent where
  | downloadAttempt
  | statusWrite (s : MeetingStatus)
deriving DecidableEq, Repr

/-- Oracle outcomes of the external steps of one orchestrator run:
`download_blob` (the returned byte payload, or the raised error),
`_resolve_transcript`, `extractor.extract`,
`store_meeting_and_result` (returning `(meeting_id, run_id)`), and the
telemetry port call (`none` when no telemetry port is configured). -/
structure StepOutcomes where
  download : Except String (List ℕ)
  resolve_transcript : Except String String
  extract : Except String ExtractionResult
  store : Except String (String × String)
  telemetry : Option (Except String Unit)
deriving Repr

/-- Embeds `ExtractMeetingUseCase.__call__` (extract_meeting.py lines 75-123),
returning the event trace and the overall outcome.

Faithfulness notes, keyed to the source:
* line 84: falsy `blob_url` raises `ExtractionError("blob_url is required.")`
  before anything else;
* line 86: a missing blob-storage backend raises before anything else;
* line 89: `download_blob` runs *outside* the `try`, before any status write;
  its exception propagates unwrapped and unhandled;
* line 90: an empty payload raises, still before any status write;
* lines 93-104: `context.meeting_id` is `meeting_id or str(uuid.uuid4())`,
  always truthy, so the PROCESSING write always happens next;
* line 107: `_persist_original_file` returns `ctx.blob_url` (nonempty here)
  without calling any port, so it cannot fail on this path;
* lines 108-111: resolution, extraction, persistence and telemetry run inside
  the `try`; any exception (`ExtractionError` or not) writes FAILED and
  re-raises (non-`ExtractionError` exceptions are wrapped, which only changes
  the message);
* lines 120-123: on success COMPLETED is written and the result returned. -/
def extract_meeting_use_case (blob_url : String) (blob_storage_configured : Bool)
    (env : StepOutcomes) : List OrchestratorEvent × Except String ExtractionResult :=
  if blob_url = "" then ([], .error "blob_url is required.")
  else if blob_storage_configured = false then ([], .error "Blob storage is not configured.")
  else
    match env.download with
    | .error e => ([.downloadAttempt], .error e)
    | .ok payload =>
      if payload = [] then ([.downloadAttempt], .error "Referenced blob is empty.")
      else
        let pre : List OrchestratorEvent := [.downloadAttempt, .statusWrite .processing]
        match env.resolve_transcript with
        | .error e => (pre ++ [.statusWrite .failed], .error e)
        | .ok _transcript =>
          match env.extract with
          | .error e => (pre ++ [.statusWrite .failed], .error ("Extraction failed: " ++ e))
          | .ok result =>
            match env.store with
            | .error e =>
              (pre ++ [.statusWrite .failed], .error ("Failed to persist results: " ++ e))
            | .ok _ =>
              match env.telemetry with
              | some (.error e) =>
                (pre ++ [.statusWrite .failed], .error ("Unexpected failure: " ++ e))
              | _ => (pre ++ [.statusWrite .completed], .ok result)

/-- The meeting-status writes contained in an orchestrator event trace. -/
def status_writes (events : List OrchestratorEvent) : List MeetingStatus :=
  events.filterMap fun e =>
    match e with
    | .statusWrite s => some s
    | _ => none

/-- Embeds `MLflowTelemetryAdapter.log_extraction_run`
(mlflow_adapter.py lines 11-36): the underlying
`backend.mlflow_logging.log_extraction_run` call is wrapped in
`try/except Exception`, its failure is logged and swallowed, so the adapter
itself never raises. `inner` is the oracle outcome of the wrapped call. -/
def mlflow_telemetry_log (inner : Except String Unit) : Except String Unit :=
  match inner with
  | .ok _ => .ok ()
  | .error _ => .ok ()

/-- Successive deliveries of one queue message to
`ExtractMeetingUseCase.process_job` by `AzureQueueWorker`: per
`_process_message`, a handler failure leaves the message undeleted, so after
the lease expires it is redelivered and the whole job re-runs; a success
deletes the message and ends the sequence. `envs` lists the step outcomes of
each successive attempt; the returned list is the meeting-status write
sequence the repository observes for this job. -/
def worker_attempts (blob_url : String) (blob_storage_configured : Bool) :
    List StepOutcomes → List MeetingStatus
  | [] => []
  | env :: rest =>
    match extract_meeting_use_case blob_url blob_storage_configured env with
    | (tr, .ok _) => status_writes tr
    | (tr, .error _) =>
      status_writes tr ++ worker_attempts blob_url blob_storage_configured rest

/-- The full status history of one job: `SubmitMeetingImportCommand.execute`
(meeting_import.py lines 32-49) writes QUEUED at submission, then the worker
delivers the enqueued message until one attempt succeeds. -/
def submission_then_worker (blob_url : String) (blob_storage_configured : Bool)
    (envs : List StepOutcomes) : List MeetingStatus :=
  .queued :: worker_attempts blob_url blob_storage_configured envs


/-! ## Concrete instances used in scenario theorems and witnesses -/

/-- An intro sample decoded at sample rate 8000 (scenario input). -/
def intro_8000 : DecodedIntro :=
  { name := "intro_alice.mp3", role := "ALICE", frames := [0, 0],
    num_frames := 1, sample_rate := 8000, sample_width := 2, channels := 1 }

/-- Scenario input: a 2-second intro sample at 16 kHz, 16-bit mono
(32000 frames, 64000 payload bytes). -/
def intro_alice_2s : DecodedIntro :=
  { name := "intro_alice.mp3", role := "ALICE", frames := List.replicate 64000 1,
    num_frames := 32000, sample_rate := 16000, sample_width := 2, channels := 1 }

/-- Scenario input: a 3-second intro sample at 16 kHz, 16-bit mono
(48000 frames, 96000 payload bytes). -/
def intro_bob_3s : DecodedIntro :=
  { name := "intro_bob.mp3", role := "BOB", frames := List.replicate 96000 2,
    num_frames := 48000, sample_rate := 16000, sample_width := 2, channels := 1 }

/-- Scenario input: 10 seconds of meeting audio at 16 kHz, 16-bit mono
(320000 payload bytes). -/
def meeting_10s : List ℕ := List.replicate 320000 3

/-- Step outcomes with every external step succeeding and no telemetry port. -/
def all_ok_env : StepOutcomes :=
  { download := .ok [1], resolve_transcript := .ok "Speaker 1: hello",
    extract := .ok { tasks := ["t1"] }, store := .ok ("m-1", "run-1"), telemetry := none }

/-- Step outcomes whose transcript-resolution step raises. -/
def resolve_fail_env : StepOutcomes :=
  { all_ok_env with resolve_transcript := .error "Transcription service is not configured." }

/-- Step outcomes whose blob download raises. -/
def download_fail_env : StepOutcomes :=
  { all_ok_env with download := .error "connection reset by peer" }

/-- Step outcomes whose telemetry port raises. -/
def telemetry_raise_env : StepOutcomes :=
  { all_ok_env with telemetry := some (.error "mlflow connection refused") }

/-- Step outcomes whose telemetry port is the MLflow adapter over a failing
MLflow call. -/
def mlflow_adapter_env : StepOutcomes :=
  { all_ok_env with telemetry := some (mlflow_telemetry_log (.error "mlflow connection refused")) }

/-! ## Theorems -/

/-- C1: for every decodable queue message carrying a job, the queue worker
deletes the message if and only if the registered handler returns without
raising; after a handler exception the message is left undeleted. -/
theorem queue_worker_deletes_iff_handler_succeeds
    (decoded : Except String MeetingImportJob)
    (handler : MeetingImportJob → Except String Unit)
    (job : MeetingImportJob) (h : decoded = .ok job) :
    (process_message decoded handler).deleted = true ↔ handler job = .ok () := by
  subst h
  unfold process_message
  cases hh : handler job <;> simp [hh]

/-- Witness for C1 at a concrete job and an always-succeeding handler. -/
theorem queue_worker_deletes_iff_handler_succeeds_witness :
    (process_message
        (.ok { meeting_id := "m-1", title := "Sprint sync", started_at := "2025-01-01",
               blob_url := "https://blob/a.wav", original_filename := none })
        (fun _ => .ok ())).deleted = true
      ↔ (fun (_ : MeetingImportJob) => (.ok () : Except String Unit))
          { meeting_id := "m-1", title := "Sprint sync", started_at := "2025-01-01",
            blob_url := "https://blob/a.wav", original_filename := none } = .ok () :=
  queue_worker_deletes_iff_handler_succeeds _ _ _ rfl

/-- C10: `transcribe` never returns an empty transcript: whenever zero
attributed lines were emitted, the tail of `transcribe` raises rather than
returning, and in the absence of a cancellation error the raised error is
`RuntimeError("No speech could be recognized.")`. -/
theorem transcribe_rejects_empty_transcript (canceled_error : List String) :
    (∃ msg, finish_transcribe canceled_error [] = .error msg) ∧
    (canceled_error = [] →
      finish_transcribe canceled_error [] = .error "No speech could be recognized.") := by
  constructor
  · cases canceled_error with
    | nil => exact ⟨"No speech could be recognized.", rfl⟩
    | cons e rest => exact ⟨e, rfl⟩
  · rintro rfl
    rfl

/-- Witness for C10 at the empty cancellation-error list. -/
theorem transcribe_rejects_empty_transcript_witness :
    finish_transcribe [] [] = .error "No speech could be recognized." :=
  (transcribe_rejects_empty_transcript []).2 rfl

/-- C7 fails as stated: the tick conversion truncates instead of rounding to
the nearest tick. At `frame_index = 2`, `sample_rate = 3` the source computes
`int(2 / 3 * 10_000_000) = 6666666`, while the specification's
`round(2 / 3 * 10_000_000)` is `6666667`. -/
theorem frames_to_ticks_truncates_not_rounds :
    frames_to_ticks 2 3 = 6666666 ∧ ticks_round_spec 2 3 = 6666667 ∧
      frames_to_ticks 2 3 ≠ ticks_round_spec 2 3 := by
  have h1 : frames_to_ticks 2 3 = 6666666 := by decide
  have h2 : ticks_round_spec 2 3 = 6666667 := by
    unfold ticks_round_spec
    rw [round_eq]
    have h3 : ((2 : ℕ) : ℚ) / ((3 : ℕ) : ℚ) * 10000000 + 1 / 2
        = (((40000003 : ℕ) : ℤ) : ℚ) / ((6 : ℕ) : ℚ) := by
      norm_num
    rw [h3, Rat.floor_intCast_div_natCast]
    decide
  exact ⟨h1, h2, by rw [h1, h2]; decide⟩

/-- C7 (amended): the tick conversion truncates the double-precision product
toward zero rather than rounding to the nearest tick: at `(2, 3)` it yields
6666666 where rounding yields 6666667, and because of binary64 rounding it can
even fall below the exact floor division — at `(43, 16000)` it yields 26874
while `⌊43 * 10_000_000 / 16000⌋ = 26875`. At the intro-alignment scenario's
cursor values it coincides with the exact quotients. -/
theorem frames_to_ticks_truncates_float_product :
    frames_to_ticks 2 3 = 6666666 ∧
    ticks_round_spec 2 3 = 6666667 ∧
    frames_to_ticks 43 16000 = 26874 ∧
    (43 * 10000000 / 16000 : ℕ) = 26875 ∧
    frames_to_ticks 43 16000 < ((43 * 10000000 / 16000 : ℕ) : ℤ) ∧
    frames_to_ticks 32000 16000 = 20000000 ∧
    frames_to_ticks 36800 16000 = 23000000 ∧
    frames_to_ticks 84800 16000 = 53000000 ∧
    frames_to_ticks 89600 16000 = 56000000 := by
  refine ⟨by decide, ?_, by decide, by decide, by decide, by decide, by decide,
    by decide, by decide⟩
  unfold ticks_round_spec
  rw [round_eq]
  have h3 : ((2 : ℕ) : ℚ) / ((3 : ℕ) : ℚ) * 10000000 + 1 / 2
      = (((40000003 : ℕ) : ℤ) : ℚ) / ((6 : ℕ) : ℚ) := by
    norm_num
  rw [h3, Rat.floor_intCast_div_natCast]
  decide

/-- C8: whenever some reference intro sample's decoded
`(sample_rate, sample_width, channels)` does not match the meeting audio's,
alignment raises the incompatible-format error naming an offending file and
returns no partial alignment. -/
theorem incompatible_intro_aborts_alignment
    (decoded : List DecodedIntro) (meeting_frames : List ℕ)
    (sample_rate sample_width channels intro_silence_ms : ℕ)
    (hbad : ∃ d ∈ decoded, (d.sample_rate, d.sample_width, d.channels)
      ≠ (sample_rate, sample_width, channels)) :
    ∃ d0 ∈ decoded,
      (d0.sample_rate, d0.sample_width, d0.channels) ≠ (sample_rate, sample_width, channels) ∧
      load_intro_chunks decoded sample_rate sample_width channels
        = .error ("Intro sample " ++ d0.name ++ " has incompatible audio format") ∧
      prepend_reference_intros decoded meeting_frames
          sample_rate sample_width channels intro_silence_ms
        = .error ("Intro sample " ++ d0.name ++ " has incompatible audio format") := by
  induction decoded with
  | nil => simp at hbad
  | cons d rest ih =>
    by_cases hd : (d.sample_rate, d.sample_width, d.channels)
        = (sample_rate, sample_width, channels)
    · obtain ⟨b, hb_mem, hb_bad⟩ := hbad
      have hb_rest : b ∈ rest := by
        rcases List.mem_cons.mp hb_mem with h | h
        · exact absurd (h ▸ hd) hb_bad
        · exact h
      obtain ⟨d0, hd0_mem, hd0_bad, hd0_load, _⟩ := ih ⟨b, hb_rest, hb_bad⟩
      refine ⟨d0, List.mem_cons_of_mem _ hd0_mem, hd0_bad, ?_, ?_⟩
      · unfold load_intro_chunks
        rw [if_neg (by simpa using hd)]
        rw [hd0_load]
      · unfold prepend_reference_intros
        unfold load_intro_chunks
        rw [if_neg (by simpa using hd)]
        rw [hd0_load]
    · refine ⟨d, List.mem_cons_self _ _, hd, ?_, ?_⟩
      · unfold load_intro_chunks
        rw [if_pos hd]
      · unfold prepend_reference_intros
        unfold load_intro_chunks
        rw [if_pos hd]

/-- Witness for C8: the specification's scenario — an intro sample decoded at
sample rate 8000 against meeting audio at 16000 aborts alignment with the
incompatible-format error naming the file. -/
theorem incompatible_intro_aborts_alignment_witness :
    ∃ d0 ∈ [intro_8000],
      (d0.sample_rate, d0.sample_width, d0.channels) ≠ ((16000 : ℕ), (2 : ℕ), (1 : ℕ)) ∧
      load_intro_chunks [intro_8000] 16000 2 1
        = .error ("Intro sample " ++ d0.name ++ " has incompatible audio format") ∧
      prepend_reference_intros [intro_8000] [1, 2] 16000 2 1 300
        = .error ("Intro sample " ++ d0.name ++ " has incompatible audio format") :=
  incompatible_intro_aborts_alignment [intro_8000] [1, 2] 16000 2 1 300
    ⟨intro_8000, List.mem_cons_self _ _, by decide⟩

/-- Helper for C6: in a sorted, non-overlapping, nonempty-interval boundary
list, the search loop of `_role_for_offset` run at the i-th boundary's
`start_tick` finds exactly the i-th boundary. -/
theorem boundary_for_offset_at_start (B : List Boundary) (i : ℕ) (h : i < B.length)
    (hsort : List.Pairwise (fun a b => a.end_tick ≤ b.start_tick) B)
    (hne : ∀ b ∈ B, b.start_tick < b.end_tick) :
    boundary_for_offset B (B.get ⟨i, h⟩).start_tick = some (B.get ⟨i, h⟩) := by
  induction B generalizing i with
  | nil => simp at h
  | cons b rest ih =>
    obtain ⟨hhead, htail⟩ := List.pairwise_cons.mp hsort
    cases i with
    | zero =>
      have hb : b.start_tick < b.end_tick := hne b (List.mem_cons_self _ _)
      have hget0 : (b :: rest).get ⟨0, h⟩ = b := rfl
      rw [hget0]
      unfold boundary_for_offset
      rw [List.find?_cons_of_pos]
      simp [hb]
    | succ j =>
      have hj : j < rest.length := Nat.lt_of_succ_lt_succ h
      have hget : (b :: rest).get ⟨j + 1, h⟩ = rest.get ⟨j, hj⟩ := rfl
      rw [hget]
      have hmem : rest.get ⟨j, hj⟩ ∈ rest := List.get_mem rest j hj
      have hle : b.end_tick ≤ (rest.get ⟨j, hj⟩).start_tick := hhead _ hmem
      have hbs : b.start_tick < b.end_tick := hne b (List.mem_cons_self _ _)
      unfold boundary_for_offset
      rw [List.find?_cons_of_neg]
      · exact ih j hj htail fun x hx => hne x (List.mem_cons_of_mem _ hx)
      · simp only [Bool.and_eq_true, decide_eq_true_eq, not_and, not_lt]
        intro _
        exact hle

/-- C6: boundaries are half-open `[start, end)` intervals. For every sorted,
non-overlapping list of nonempty boundaries, a segment whose offset equals
`B[i].start_tick` is attributed to `B[i].role` (inclusive lower bound), and
the boundary search at `B[i].end_tick` never yields `B[i]` itself (exclusive
upper bound). -/
theorem boundary_intervals_half_open (B : List Boundary) (i : ℕ) (h : i < B.length)
    (hsort : List.Pairwise (fun a b => a.end_tick ≤ b.start_tick) B)
    (hne : ∀ b ∈ B, b.start_tick < b.end_tick) :
    role_for_offset B (B.get ⟨i, h⟩).start_tick = some (B.get ⟨i, h⟩).role ∧
    boundary_for_offset B (B.get ⟨i, h⟩).end_tick ≠ some (B.get ⟨i, h⟩) := by
  constructor
  · unfold role_for_offset
    rw [boundary_for_offset_at_start B i h hsort hne]
    rfl
  · intro hcontra
    have hp := List.find?_some hcontra
    simp only [Bool.and_eq_true, decide_eq_true_eq] at hp
    exact absurd hp.2 (lt_irrefl _)

/-- Witness for C6 on a concrete two-boundary list at index 0. -/
theorem boundary_intervals_half_open_witness :
    role_for_offset
        [{ role := "ALICE", start_tick := 0, end_tick := 20000000 },
         { role := "BOB", start_tick := 23000000, end_tick := 53000000 }]
        (([{ role := "ALICE", start_tick := 0, end_tick := 20000000 },
           { role := "BOB", start_tick := 23000000, end_tick := 53000000 }] : List Boundary).get
          ⟨0, by decide⟩).start_tick
      = some (([{ role := "ALICE", start_tick := 0, end_tick := 20000000 },
                { role := "BOB", start_tick := 23000000, end_tick := 53000000 }] : List Boundary).get
          ⟨0, by decide⟩).role ∧
    boundary_for_offset
        [{ role := "ALICE", start_tick := 0, end_tick := 20000000 },
         { role := "BOB", start_tick := 23000000, end_tick := 53000000 }]
        (([{ role := "ALICE", start_tick := 0, end_tick := 20000000 },
           { role := "BOB", start_tick := 23000000, end_tick := 53000000 }] : List Boundary).get
          ⟨0, by decide⟩).end_tick
      ≠ some (([{ role := "ALICE", start_tick := 0, end_tick := 20000000 },
                { role := "BOB", start_tick := 23000000, end_tick := 53000000 }] : List Boundary).get
          ⟨0, by decide⟩) :=
  boundary_intervals_half_open _ 0 (by decide)
    (by simp)
    (by intro b hb; fin_cases hb <;> decide)

/-- Helper for C5: with a nonempty silence chunk, the intro loop of
`_prepend_reference_intros` produces exactly the interleaved
frames + silence stream, the cursor-derived boundaries, and a final cursor
advanced by every intro's frame count plus one silence gap per intro. -/
theorem intros_loop_spec (silence_chunk : List ℕ) (silence_frames sample_rate : ℕ)
    (hs : silence_chunk ≠ []) (intros : List IntroChunk) :
    ∀ cursor : ℕ,
      intros_loop silence_chunk silence_frames sample_rate intros cursor =
        ((intros.map fun c => c.frames ++ silence_chunk).flatten,
          boundaries_spec sample_rate silence_frames intros cursor,
          cursor + total_num_frames intros + intros.length * silence_frames) := by
  induction intros with
  | nil =>
    intro cursor
    simp [intros_loop, boundaries_spec, total_num_frames]
  | cons c rest ih =>
    intro cursor
    simp only [intros_loop, if_pos hs, List.map_cons, List.flatten_cons,
      boundaries_spec, total_num_frames, List.sum_cons, List.length_cons]
    rw [ih (cursor + c.num_frames + silence_frames)]
    simp only [Prod.mk.injEq]
    constructor
    · simp [List.append_assoc]
    constructor
    · trivial
    · simp only [total_num_frames, List.map_cons, List.sum_cons, List.length_cons]
      ring

/-- C5: the intro-alignment algorithm appends, for each reference sample in
enumeration order, the sample's frames followed by a silence gap, records the
boundary ticks from the frame cursor, and records `meeting_start_tick` after
the final gap (general part); in particular, for two intro samples of 2 s and
3 s, a 0.3 s silence gap and `sample_rate = 16000`, it produces boundaries
`[(0, ticks 32000), (ticks (32000+4800), ticks (32000+4800+48000))]` and
`meeting_start_tick = ticks (32000+4800+48000+4800)` (scenario part). -/
theorem intro_alignment_appends_and_records :
    (∀ (decoded : List DecodedIntro) (meeting_frames : List ℕ)
        (sr sw ch ms : ℕ) (intros : List IntroChunk),
      load_intro_chunks decoded sr sw ch = .ok intros →
      intros ≠ [] →
      sr * ms / 1000 ≠ 0 →
      sr * ms / 1000 * sw * ch ≠ 0 →
      prepend_reference_intros decoded meeting_frames sr sw ch ms =
        .ok { frames :=
                (intros.map fun c =>
                  c.frames ++ List.replicate (sr * ms / 1000 * sw * ch) 0).flatten
                  ++ meeting_frames,
              boundaries := boundaries_spec sr (sr * ms / 1000) intros 0,
              meeting_start_tick :=
                frames_to_ticks
                  (total_num_frames intros + intros.length * (sr * ms / 1000)) sr }) ∧
    (prepend_reference_intros [intro_alice_2s, intro_bob_3s] meeting_10s 16000 2 1 300 =
      .ok { frames := intro_alice_2s.frames ++ List.replicate 9600 0
                        ++ intro_bob_3s.frames ++ List.replicate 9600 0 ++ meeting_10s,
            boundaries :=
              [{ role := "ALICE", start_tick := frames_to_ticks 0 16000,
                 end_tick := frames_to_ticks 32000 16000 },
               { role := "BOB", start_tick := frames_to_ticks (32000 + 4800) 16000,
                 end_tick := frames_to_ticks (32000 + 4800 + 48000) 16000 }],
            meeting_start_tick := frames_to_ticks (32000 + 4800 + 48000 + 4800) 16000 } ∧
      frames_to_ticks 32000 16000 = 20000000 ∧
      frames_to_ticks (32000 + 4800) 16000 = 23000000 ∧
      frames_to_ticks (32000 + 4800 + 48000) 16000 = 53000000 ∧
      frames_to_ticks (32000 + 4800 + 48000 + 4800) 16000 = 56000000) := by
  have hgen : ∀ (decoded : List DecodedIntro) (meeting_frames : List ℕ)
      (sr sw ch ms : ℕ) (intros : List IntroChunk),
      load_intro_chunks decoded sr sw ch = .ok intros →
      intros ≠ [] →
      sr * ms / 1000 ≠ 0 →
      sr * ms / 1000 * sw * ch ≠ 0 →
      prepend_reference_intros decoded meeting_frames sr sw ch ms =
        .ok { frames :=
                (intros.map fun c =>
                  c.frames ++ List.replicate (sr * ms / 1000 * sw * ch) 0).flatten
                  ++ meeting_frames,
              boundaries := boundaries_spec sr (sr * ms / 1000) intros 0,
              meeting_start_tick :=
                frames_to_ticks
                  (total_num_frames intros + intros.length * (sr * ms / 1000)) sr } := by
    intro decoded meeting_frames sr sw ch ms intros hload hne hsf hchunk
    unfold prepend_reference_intros
    rw [hload]
    simp only [if_neg hne, if_pos hsf]
    have hrep : (List.replicate (sr * ms / 1000 * sw * ch) 0 : List ℕ) ≠ [] := by
      simpa [List.replicate_eq_nil_iff] using hchunk
    rw [intros_loop_spec _ _ _ hrep intros 0]
    simp
  refine ⟨hgen, ?_⟩
  have hload : load_intro_chunks [intro_alice_2s, intro_bob_3s] 16000 2 1 =
      .ok [{ role := "ALICE", frames := intro_alice_2s.frames, num_frames := 32000 },
           { role := "BOB", frames := intro_bob_3s.frames, num_frames := 48000 }] := rfl
  have h := hgen [intro_alice_2s, intro_bob_3s] meeting_10s 16000 2 1 300
    [{ role := "ALICE", frames := intro_alice_2s.frames, num_frames := 32000 },
     { role := "BOB", frames := intro_bob_3s.frames, num_frames := 48000 }]
    hload (by simp) (by norm_num) (by norm_num)
  rw [h]
  refine ⟨?_, ?_, ?_, ?_, ?_⟩
  · norm_num [boundaries_spec, total_num_frames, List.append_assoc]
  · decide
  · decide
  · decide
  · decide

/-- Witness for C5's general part, instantiated at the two-intro scenario. -/
theorem intro_alignment_appends_and_records_witness :
    prepend_reference_intros [intro_alice_2s, intro_bob_3s] meeting_10s 16000 2 1 300 =
      .ok { frames :=
              (([{ role := "ALICE", frames := intro_alice_2s.frames, num_frames := 32000 },
                 { role := "BOB", frames := intro_bob_3s.frames, num_frames := 48000 }]
                  : List IntroChunk).map fun c =>
                c.frames ++ List.replicate (16000 * 300 / 1000 * 2 * 1) 0).flatten
                ++ meeting_10s,
            boundaries :=
              boundaries_spec 16000 (16000 * 300 / 1000)
                [{ role := "ALICE", frames := intro_alice_2s.frames, num_frames := 32000 },
                 { role := "BOB", frames := intro_bob_3s.frames, num_frames := 48000 }] 0,
            meeting_start_tick :=
              frames_to_ticks
                (total_num_frames
                    [{ role := "ALICE", frames := intro_alice_2s.frames, num_frames := 32000 },
                     { role := "BOB", frames := intro_bob_3s.frames, num_frames := 48000 }]
                  + 2 * (16000 * 300 / 1000)) 16000 } :=
  intro_alignment_appends_and_records.1 [intro_alice_2s, intro_bob_3s] meeting_10s
    16000 2 1 300 _ rfl (by simp) (by norm_num) (by norm_num)

/-- Helper: an existing binding in the speaker-roles dict survives appending
further entries. -/
theorem lookup_role_append_some (m extra : List (ℕ × String)) (k : ℕ) (r : String)
    (h : lookup_role m k = some r) : lookup_role (m ++ extra) k = some r := by
  unfold lookup_role at *
  cases hf : m.find? fun p => p.1 == k with
  | none => rw [hf] at h; simp at h
  | some p =>
    rw [hf] at h
    rw [List.find?_append, hf]
    simpa using h

/-- Helper: inserting a fresh key at the end of the dict makes it looked up. -/
theorem lookup_role_append_fresh (m : List (ℕ × String)) (k : ℕ) (v : String)
    (h : lookup_role m k = none) : lookup_role (m ++ [(k, v)]) k = some v := by
  unfold lookup_role at *
  cases hf : m.find? fun p => p.1 == k with
  | none =>
    rw [List.find?_append, hf]
    simp [List.find?]
  | some p => rw [hf] at h; simp at h

/-- Helper: `setdefault` never changes an existing binding. -/
theorem setdefault_role_preserves (m : List (ℕ × String)) (k k' : ℕ) (v r : String)
    (h : lookup_role m k = some r) : lookup_role (setdefault_role m k' v) k = some r := by
  unfold setdefault_role
  by_cases hk : (lookup_role m k').isSome
  · rw [if_pos hk]; exact h
  · rw [if_neg hk]; exact lookup_role_append_some m [(k', v)] k r h

/-- Helper: one `_recognized_handler` step never changes an existing
speaker-id → role binding. -/
theorem recognized_handler_preserves_binding (B : List Boundary) (ms : ℤ)
    (st : RecognitionState) (seg : TranscriptionSegment) (k : ℕ) (r : String)
    (h : lookup_role st.speaker_roles k = some r) :
    lookup_role (recognized_handler B ms st seg).speaker_roles k = some r := by
  unfold recognized_handler
  by_cases ht : seg.text.trim = ""
  · rw [if_pos ht]; exact h
  · rw [if_neg ht]
    cases hrole : role_for_offset B seg.offset with
    | none =>
      cases seg.speaker_id <;> simp only [emit_or_discard] <;> split <;> exact h
    | some role =>
      cases hsid : seg.speaker_id with
      | none => simp only [emit_or_discard]; split <;> exact h
      | some sid =>
        dsimp only
        by_cases hr : role = ""
        · rw [if_pos hr]; simp only [emit_or_discard]; split <;> exact h
        · rw [if_neg hr]
          exact setdefault_role_preserves st.speaker_roles k sid role r h

/-- Helper: folding the handler over any segment list never changes an
existing speaker-id → role binding. -/
theorem process_segments_preserves_binding (B : List Boundary) (ms : ℤ)
    (segs : List TranscriptionSegment) :
    ∀ (st : RecognitionState) (k : ℕ) (r : String),
      lookup_role st.speaker_roles k = some r →
      lookup_role (process_segments B ms st segs).speaker_roles k = some r := by
  induction segs with
  | nil => intro st k r h; exact h
  | cons seg rest ih =>
    intro st k r h
    exact ih _ k r (recognized_handler_preserves_binding B ms st seg k r h)

/-- C9: speaker resolution is first-boundary-wins. With boundaries whose
roles are nonempty and which precede `meeting_start_tick` (as those generated
by intro alignment do): (1) an existing speaker-id → role binding is never
changed by later segments; (2) the first in-boundary sighting of a speaker id
records that boundary's role for it; (3) every in-boundary segment is
discarded, never emitted into the transcript. -/
theorem speaker_resolution_first_boundary_wins (B : List Boundary) (ms : ℤ)
    (hrole : ∀ b ∈ B, b.role ≠ "") (hend : ∀ b ∈ B, b.end_tick ≤ ms) :
    (∀ (st : RecognitionState) (segs : List TranscriptionSegment) (k : ℕ) (r : String),
      lookup_role st.speaker_roles k = some r →
      lookup_role (process_segments B ms st segs).speaker_roles k = some r) ∧
    (∀ (st : RecognitionState) (seg : TranscriptionSegment) (sid : ℕ) (r : String),
      seg.text.trim ≠ "" →
      role_for_offset B seg.offset = some r →
      seg.speaker_id = some sid →
      lookup_role st.speaker_roles sid = none →
      lookup_role (recognized_handler B ms st seg).speaker_roles sid = some r) ∧
    (∀ (st : RecognitionState) (seg : TranscriptionSegment),
      (role_for_offset B seg.offset).isSome →
      (recognized_handler B ms st seg).recognized_segments = st.recognized_segments) := by
  refine ⟨?_, ?_, ?_⟩
  · intro st segs k r h
    exact process_segments_preserves_binding B ms segs st k r h
  · intro st seg sid r ht hr hsid hnew
    obtain ⟨b, hb_find, hb_role⟩ : ∃ b, boundary_for_offset B seg.offset = some b ∧ b.role = r := by
      unfold role_for_offset at hr
      cases hf : boundary_for_offset B seg.offset with
      | none => rw [hf] at hr; simp at hr
      | some b => rw [hf] at hr; exact ⟨b, rfl, by simpa using hr⟩
    have hb_mem : b ∈ B := List.mem_of_find?_eq_some hb_find
    have hrne : r ≠ "" := hb_role ▸ hrole b hb_mem
    unfold recognized_handler
    rw [if_neg ht, hr, hsid]
    dsimp only
    rw [if_neg hrne]
    show lookup_role (setdefault_role st.speaker_roles sid r) sid = some r
    unfold setdefault_role
    rw [hnew]
    simp only [Option.isSome_none, Bool.false_eq_true, if_false]
    exact lookup_role_append_fresh st.speaker_roles sid r hnew
  · intro st seg hin
    obtain ⟨b, hb_find⟩ := Option.isSome_iff_exists.mp (by
      unfold role_for_offset at hin
      simpa using hin)
    have hb_mem : b ∈ B := List.mem_of_find?_eq_some hb_find
    have hb_pred := List.find?_some hb_find
    simp only [Bool.and_eq_true, decide_eq_true_eq] at hb_pred
    have hoff : seg.offset < ms := lt_of_lt_of_le hb_pred.2 (hend b hb_mem)
    have hrole_eq : role_for_offset B seg.offset = some b.role := by
      unfold role_for_offset
      rw [hb_find]
      rfl
    unfold recognized_handler
    by_cases ht : seg.text.trim = ""
    · rw [if_pos ht]
    · rw [if_neg ht, hrole_eq]
      cases hsid : seg.speaker_id with
      | none =>
        dsimp only
        simp only [emit_or_discard]
        rw [if_pos hoff]
      | some sid =>
        dsimp only
        by_cases hr : b.role = ""
        · rw [if_pos hr]
          simp only [emit_or_discard]
          rw [if_pos hoff]
        · rw [if_neg hr]

/-- Witness for C9: with one concrete boundary preceding the meeting start,
an in-boundary segment is discarded (nothing is emitted). -/
theorem speaker_resolution_first_boundary_wins_witness :
    (recognized_handler [{ role := "ALICE", start_tick := 0, end_tick := 20000000 }]
        25000000 { speaker_roles := [], recognized_segments := [] }
        { speaker_id := some 7, text := "hello", offset := 100 }).recognized_segments
      = ({ speaker_roles := [], recognized_segments := [] } : RecognitionState).recognized_segments :=
  (speaker_resolution_first_boundary_wins
      [{ role := "ALICE", start_tick := 0, end_tick := 20000000 }] 25000000
      (by intro b hb; fin_cases hb; decide)
      (by intro b hb; fin_cases hb; decide)).2.2
    { speaker_roles := [], recognized_segments := [] }
    { speaker_id := some 7, text := "hello", offset := 100 }
    (by decide)

/-- Helper: every orchestrator run either performs no status write and raises
(the validation / download phase), or writes exactly PROCESSING then COMPLETED
and returns, or writes exactly PROCESSING then FAILED and raises. -/
theorem run_writes_characterization (u : String) (cfg : Bool) (env : StepOutcomes) :
    (status_writes (extract_meeting_use_case u cfg env).1 = [] ∧
      ∃ e, (extract_meeting_use_case u cfg env).2 = .error e) ∨
    (status_writes (extract_meeting_use_case u cfg env).1
        = [.processing, .completed] ∧
      ∃ res, (extract_meeting_use_case u cfg env).2 = .ok res) ∨
    (status_writes (extract_meeting_use_case u cfg env).1 = [.processing, .failed] ∧
      ∃ e, (extract_meeting_use_case u cfg env).2 = .error e) := by
  by_cases hu : u = ""
  · exact .inl (by simp [extract_meeting_use_case, hu, status_writes])
  cases cfg with
  | false => exact .inl (by simp [extract_meeting_use_case, hu, status_writes])
  | true =>
    cases hdl : env.download with
    | error e => exact .inl (by simp [extract_meeting_use_case, hu, hdl, status_writes])
    | ok payload =>
      by_cases hp : payload = []
      · exact .inl (by simp [extract_meeting_use_case, hu, hdl, hp, status_writes])
      cases hres : env.resolve_transcript with
      | error e =>
        exact .inr (.inr (by simp [extract_meeting_use_case, hu, hdl, hp, hres, status_writes]))
      | ok t =>
        cases hext : env.extract with
        | error e =>
          exact .inr (.inr (by
            simp [extract_meeting_use_case, hu, hdl, hp, hres, hext, status_writes]))
        | ok res =>
          cases hstore : env.store with
          | error e =>
            exact .inr (.inr (by
              simp [extract_meeting_use_case, hu, hdl, hp, hres, hext, hstore, status_writes]))
          | ok ids =>
            cases htel : env.telemetry with
            | none =>
              exact .inr (.inl (by
                simp [extract_meeting_use_case, hu, hdl, hp, hres, hext, hstore, htel,
                  status_writes]))
            | some tl =>
              cases tl with
              | error e =>
                exact .inr (.inr (by
                  simp [extract_meeting_use_case, hu, hdl, hp, hres, hext, hstore, htel,
                    status_writes]))
              | ok u0 =>
                exact .inr (.inl (by
                  simp [extract_meeting_use_case, hu, hdl, hp, hres, hext, hstore, htel,
                    status_writes]))

/-- Helper: in the status-write sequence produced by successive deliveries of
one message, COMPLETED can only be the last element — once a delivery
succeeds the message is deleted and no further status is written. -/
theorem worker_attempts_completed_last (u : String) (cfg : Bool) :
    ∀ (envs : List StepOutcomes) (l1 l2 : List MeetingStatus),
      worker_attempts u cfg envs = l1 ++ .completed :: l2 → l2 = [] := by
  intro envs
  induction envs with
  | nil =>
    intro l1 l2 h
    simp only [worker_attempts] at h
    exact absurd h.symm (List.append_ne_nil_of_right_ne_nil _ (by simp))
  | cons env rest ih =>
    intro l1 l2 h
    rw [worker_attempts] at h
    rcases hrun : extract_meeting_use_case u cfg env with ⟨tr, res⟩
    rw [hrun] at h
    cases res with
    | ok r =>
      dsimp only at h
      have hw : status_writes tr = [.processing, .completed] := by
        rcases run_writes_characterization u cfg env with ⟨hw, _, he⟩ | ⟨hw, _, _⟩ | ⟨hw, _, he⟩
        · rw [hrun] at he; simp at he
        · rw [hrun] at hw; exact hw
        · rw [hrun] at he; simp at he
      rw [hw] at h
      rcases l1 with _ | ⟨a, _ | ⟨b, l1p⟩⟩ <;> simp_all
    | error e =>
      dsimp only at h
      have hw : status_writes tr = [] ∨ status_writes tr = [.processing, .failed] := by
        rcases run_writes_characterization u cfg env with ⟨hw, _, _⟩ | ⟨hw, r, hr⟩ | ⟨hw, _, _⟩
        · left
          rw [hrun] at hw
          exact hw
        · rw [hrun] at hr
          simp at hr
        · right
          rw [hrun] at hw
          exact hw
      rcases hw with hw | hw
      · rw [hw] at h
        simp only [List.nil_append] at h
        exact ih l1 l2 h
      · rw [hw] at h
        rcases l1 with _ | ⟨a, l1t⟩
        · simp at h
        rcases l1t with _ | ⟨b, l1p⟩
        · simp at h
        · simp only [List.cons_append, List.cons.injEq] at h
          exact ih l1p l2 h.2.2

/-- C2 fails as stated: after a handler failure the message is left in the
queue and redelivered, and the *same* job moves the meeting from FAILED back
to PROCESSING. Concretely, one failing delivery followed by a successful
redelivery yields the status history QUEUED, PROCESSING, FAILED, PROCESSING,
COMPLETED — FAILED (index 2) is followed by PROCESSING (index 3) with no new
job submitted. -/
theorem redelivery_reenters_processing_from_failed :
    submission_then_worker "https://blob/a.wav" true [resolve_fail_env, all_ok_env]
      = [.queued, .processing, .failed, .processing, .completed] ∧
    (submission_then_worker "https://blob/a.wav" true [resolve_fail_env, all_ok_env])[2]?
      = some .failed ∧
    (submission_then_worker "https://blob/a.wav" true [resolve_fail_env, all_ok_env])[3]?
      = some .processing :=
  ⟨rfl, rfl, rfl⟩

/-- C2 (amended): within a single orchestrator run the writes are forward-only
(nothing, or PROCESSING followed by one terminal status), and COMPLETED is
terminal for the whole pipeline — once the meeting is marked COMPLETED its
message is deleted and no later status (in particular no PROCESSING) is ever
written for that job. After a handler failure, however, redelivery of the same
message does re-enter PROCESSING from FAILED. -/
theorem pipeline_completed_is_terminal (u : String) (cfg : Bool)
    (envs : List StepOutcomes) :
    (∀ env : StepOutcomes,
      status_writes (extract_meeting_use_case u cfg env).1 = [] ∨
      status_writes (extract_meeting_use_case u cfg env).1 = [.processing, .completed] ∨
      status_writes (extract_meeting_use_case u cfg env).1 = [.processing, .failed]) ∧
    (∀ l1 l2 : List MeetingStatus,
      submission_then_worker u cfg envs = l1 ++ .completed :: l2 → l2 = []) := by
  constructor
  · intro env
    rcases run_writes_characterization u cfg env with ⟨hw, _⟩ | ⟨hw, _⟩ | ⟨hw, _⟩
    · exact .inl hw
    · exact .inr (.inl hw)
    · exact .inr (.inr hw)
  · intro l1 l2 h
    unfold submission_then_worker at h
    rcases l1 with _ | ⟨a, l1t⟩
    · simp at h
    · simp only [List.cons_append, List.cons.injEq] at h
      exact worker_attempts_completed_last u cfg envs l1t l2 h.2

/-- Witness for C2 (amended) at a concrete single successful delivery. -/
theorem pipeline_completed_is_terminal_witness :
    (status_writes (extract_meeting_use_case "https://blob/a.wav" true all_ok_env).1 = [] ∨
     status_writes (extract_meeting_use_case "https://blob/a.wav" true all_ok_env).1
        = [.processing, .completed] ∨
     status_writes (extract_meeting_use_case "https://blob/a.wav" true all_ok_env).1
        = [.processing, .failed]) ∧
    ([] : List MeetingStatus) = [] :=
  ⟨(pipeline_completed_is_terminal "https://blob/a.wav" true [all_ok_env]).1 all_ok_env,
   (pipeline_completed_is_terminal "https://blob/a.wav" true [all_ok_env]).2
     [.queued, .processing] [] rfl⟩

/-- C3 fails as stated: an exception raised by the telemetry *port* during
the telemetry step is caught by the orchestrator's generic handler, which
marks the job FAILED and re-raises — it is not swallowed. Concretely, with
every other step succeeding and a telemetry port that raises, the run writes
PROCESSING then FAILED and raises instead of completing. -/
theorem telemetry_port_exception_marks_failed :
    status_writes (extract_meeting_use_case "https://blob/a.wav" true telemetry_raise_env).1
      = [.processing, .failed] ∧
    (extract_meeting_use_case "https://blob/a.wav" true telemetry_raise_env).2
      = .error "Unexpected failure: mlflow connection refused" :=
  ⟨rfl, rfl⟩

/-- C3 (amended): the swallowing lives in the MLflow telemetry adapter, not
in the orchestrator. When the configured telemetry port is the MLflow adapter,
a failure of the underlying MLflow logging call is logged and swallowed inside
the adapter, the port call returns normally, and the job is still marked
COMPLETED with the result returned; only a port that itself raises flips the
job to FAILED. -/
theorem mlflow_telemetry_failure_job_completes
    (blob_url : String) (env : StepOutcomes) (inner : Except String Unit)
    (hurl : blob_url ≠ "")
    (payload : List ℕ) (hdl : env.download = .ok payload) (hp : payload ≠ [])
    (t : String) (hres : env.resolve_transcript = .ok t)
    (res : ExtractionResult) (hext : env.extract = .ok res)
    (ids : String × String) (hstore : env.store = .ok ids)
    (htel : env.telemetry = some (mlflow_telemetry_log inner)) :
    status_writes (extract_meeting_use_case blob_url true env).1
      = [.processing, .completed] ∧
    (extract_meeting_use_case blob_url true env).2 = .ok res := by
  have htel_ok : env.telemetry = some (.ok ()) := by
    rw [htel]
    cases inner <;> rfl
  constructor <;>
    simp [extract_meeting_use_case, hurl, hdl, hp, hres, hext, hstore, htel_ok, status_writes]

/-- Witness for C3 (amended): the MLflow adapter over a failing MLflow call,
with all other steps succeeding, still completes the job. -/
theorem mlflow_telemetry_failure_job_completes_witness :
    status_writes (extract_meeting_use_case "https://blob/a.wav" true mlflow_adapter_env).1
      = [.processing, .completed] ∧
    (extract_meeting_use_case "https://blob/a.wav" true mlflow_adapter_env).2
      = .ok { tasks := ["t1"] } :=
  mlflow_telemetry_failure_job_completes "https://blob/a.wav" mlflow_adapter_env
    (.error "mlflow connection refused") (by decide)
    [1] rfl (by decide)
    "Speaker 1: hello" rfl
    { tasks := ["t1"] } rfl
    ("m-1", "run-1") rfl
    rfl

/-- C4 fails as stated: the blob is downloaded *before* any status write, and
a download exception propagates without marking the meeting FAILED (or
PROCESSING). Concretely, with a failing download the run's whole event trace
is the download attempt alone: no status is written at all, refuting both
"marked PROCESSING before the blob is downloaded" and "any exception along
the way (blob download, ...) marks the meeting FAILED". -/
theorem download_failure_skips_status_writes :
    (extract_meeting_use_case "https://blob/a.wav" true download_fail_env).1
      = [.downloadAttempt] ∧
    status_writes (extract_meeting_use_case "https://blob/a.wav" true download_fail_env).1
      = [] ∧
    (extract_meeting_use_case "https://blob/a.wav" true download_fail_env).2
      = .error "connection reset by peer" :=
  ⟨rfl, rfl, rfl⟩

/-- C4 (amended): with a missing `blob_url` or no storage backend the call
raises and performs no status mutation; a download failure (which happens
*before* any status write) also raises with no status mutation; after a
successful, nonempty download the meeting is marked PROCESSING (the write
comes after the download attempt), and the run then writes exactly one
terminal status: COMPLETED when it returns, FAILED when any later step
(transcript resolution, extraction, persistence, telemetry port) raises. -/
theorem orchestrator_status_protocol :
    (∀ (cfg : Bool) (env : StepOutcomes),
      extract_meeting_use_case "" cfg env = ([], .error "blob_url is required.")) ∧
    (∀ (u : String) (env : StepOutcomes), u ≠ "" →
      extract_meeting_use_case u false env
        = ([], .error "Blob storage is not configured.")) ∧
    (∀ (u : String) (env : StepOutcomes) (e : String), u ≠ "" →
      env.download = .error e →
      extract_meeting_use_case u true env = ([.downloadAttempt], .error e)) ∧
    (∀ (u : String) (env : StepOutcomes) (payload : List ℕ), u ≠ "" →
      env.download = .ok payload → payload ≠ [] →
      ∃ final : MeetingStatus,
        (extract_meeting_use_case u true env).1
          = [.downloadAttempt, .statusWrite .processing, .statusWrite final] ∧
        ((∃ res, (extract_meeting_use_case u true env).2 = .ok res) →
          final = .completed) ∧
        ((∃ err, (extract_meeting_use_case u true env).2 = .error err) →
          final = .failed)) := by
  refine ⟨?_, ?_, ?_, ?_⟩
  · intro cfg env
    simp [extract_meeting_use_case]
  · intro u env hu
    simp [extract_meeting_use_case, hu]
  · intro u env e hu hdl
    simp [extract_meeting_use_case, hu, hdl]
  · intro u env payload hu hdl hp
    cases hres : env.resolve_transcript with
    | error e =>
      refine ⟨.failed, ?_, ?_, fun _ => rfl⟩
      · simp [extract_meeting_use_case, hu, hdl, hp, hres]
      · rintro ⟨res, hok⟩
        simp [extract_meeting_use_case, hu, hdl, hp, hres] at hok
    | ok t =>
      cases hext : env.extract with
      | error e =>
        refine ⟨.failed, ?_, ?_, fun _ => rfl⟩
        · simp [extract_meeting_use_case, hu, hdl, hp, hres, hext]
        · rintro ⟨res, hok⟩
          simp [extract_meeting_use_case, hu, hdl, hp, hres, hext] at hok
      | ok res =>
        cases hstore : env.store with
        | error e =>
          refine ⟨.failed, ?_, ?_, fun _ => rfl⟩
          · simp [extract_meeting_use_case, hu, hdl, hp, hres, hext, hstore]
          · rintro ⟨r, hok⟩
            simp [extract_meeting_use_case, hu, hdl, hp, hres, hext, hstore] at hok
        | ok ids =>
          cases htel : env.telemetry with
          | none =>
            refine ⟨.completed, ?_, fun _ => rfl, ?_⟩
            · simp [extract_meeting_use_case, hu, hdl, hp, hres, hext, hstore, htel]
            · rintro ⟨e, herr⟩
              simp [extract_meeting_use_case, hu, hdl, hp, hres, hext, hstore, htel] at herr
          | some tl =>
            cases tl with
            | error e =>
              refine ⟨.failed, ?_, ?_, fun _ => rfl⟩
              · simp [extract_meeting_use_case, hu, hdl, hp, hres, hext, hstore, htel]
              · rintro ⟨r, hok⟩
                simp [extract_meeting_use_case, hu, hdl, hp, hres, hext, hstore, htel] at hok
            | ok u0 =>
              refine ⟨.completed, ?_, fun _ => rfl, ?_⟩
              · simp [extract_meeting_use_case, hu, hdl, hp, hres, hext, hstore, htel]
              · rintro ⟨e, herr⟩
                simp [extract_meeting_use_case, hu, hdl, hp, hres, hext, hstore, htel] at herr

/-- Witness for C4 (amended): with all steps succeeding the run's trace is
download, PROCESSING, then one terminal write. -/
theorem orchestrator_status_protocol_witness :
    ∃ final : MeetingStatus,
      (extract_meeting_use_case "https://blob/a.wav" true all_ok_env).1
        = [.downloadAttempt, .statusWrite .processing, .statusWrite final] ∧
      ((∃ res, (extract_meeting_use_case "https://blob/a.wav" true all_ok_env).2 = .ok res) →
        final = .completed) ∧
      ((∃ err, (extract_meeting_use_case "https://blob/a.wav" true all_ok_env).2 = .error err) →
        final = .failed) :=
  orchestrator_status_protocol.2.2.2 "https://blob/a.wav" all_ok_env [1]
    (by decide) rfl (by decide)
